import Mathlib

/-!
Shallow embedding of `src/src/empty.c` from the zigboot repository.

The file contains two kinds of code:

* `__aeabi_memset` / `__aeabi_memset4`: thin adapters over the C `memset`
  primitive, with the AEABI argument order `(dest, n, c)` instead of the
  conventional `(dest, c, n)`.  Memory is modelled as a function from byte
  addresses to byte values; `memset` returns the updated memory together
  with the destination pointer (the value the C `memset` returns).

* `chain_jump`: a straight-line sequence of hardware side effects selected
  by compile-time feature flags.  We model the routine as a function from a
  configuration of feature flags (one boolean per preprocessor symbol), the
  platform constants (`FLASH_BASE`, the addresses of `__vector_relay_table`
  and `_vector_start`) and the three scalar arguments, to the list of side
  effects it performs, in the order the C code performs them.  Arithmetic on
  `uint32_t` is `Nat` arithmetic modulo `2 ^ 32`.
-/

namespace Zigboot

/-- Byte-addressed memory: a total map from addresses to byte values. -/
def Mem : Type := Nat → Nat

/-- C `memset(data, c, n)`: fill `n` bytes starting at `data` with the byte
`(unsigned char) c`, i.e. `c` reduced modulo 256; returns the updated memory
together with the destination pointer (C `memset` returns `data`). -/
def memset (mem : Mem) (data : Nat) (c : Int) (n : Nat) : Mem × Nat :=
  (fun a => if data ≤ a ∧ a < data + n then (c % 256).toNat else mem a, data)

/-- `void *__aeabi_memset(void *data, size_t n, int c) { return memset(data, c, n); }` -/
def aeabi_memset (mem : Mem) (data : Nat) (n : Nat) (c : Int) : Mem × Nat :=
  memset mem data c n

/-- `void *__aeabi_memset4(void *data, size_t n, int c) { return memset(data, c, n); }` -/
def aeabi_memset4 (mem : Mem) (data : Nat) (n : Nat) (c : Int) : Mem × Nat :=
  memset mem data c n

/-- One side-effecting operation performed by `chain_jump`, in the order the
C source performs them.  Register writes carry the written value. -/
inductive Event : Type where
  | sysClockDisable : Event
  | usbDisable : Event
  | nvicClear : Event
  | dcacheDisable : Event
  | icacheDisable : Event
  | mpuClear : Event
  | setPSPLIM : Nat → Event
  | setMSPLIM : Nat → Event
  | irqLock : Event
  | setVectorTablePointer : Nat → Event
  | setVTOR : Nat → Event
  | setMSP : Nat → Event
  | setCONTROL : Nat → Event
  | isb : Event
  | jump : Nat → Event
deriving DecidableEq, Repr

/-- The compile-time feature flags (`CONFIG_*` preprocessor symbols) that
select which operations `chain_jump` performs. -/
structure Config : Type where
  usb_device_stack : Bool
  mcuboot_cleanup_arm_core : Bool
  cpu_cortex_m7 : Bool
  cpu_has_arm_mpu : Bool
  cpu_has_nxp_mpu : Bool
  builtin_stack_guard : Bool
  cpu_cortex_m_has_splim : Bool
  boot_intr_vec_reloc : Bool
  sw_vector_relay : Bool
  cpu_cortex_m_has_vtor : Bool
deriving DecidableEq, Repr

/-- Link-time platform constants referenced by `chain_jump`:
`FLASH_BASE`, the address of `__vector_relay_table`, and the address of the
bootloader's own vector table `_vector_start`. -/
structure Platform : Type where
  flash_base : Nat
  vector_relay_table : Nat
  vector_start : Nat
deriving DecidableEq, Repr

/-- `chain_jump(uint32_t vt, uint32_t msp, uint32_t pc)`: the list of side
effects performed, following the C source line by line.  The first statement
`vt += FLASH_BASE` is `uint32_t` addition, i.e. addition modulo `2 ^ 32`. -/
def chain_jump (cfg : Config) (p : Platform) (vt msp pc : Nat) : List Event :=
  [Event.sysClockDisable]
  ++ (if cfg.usb_device_stack then [Event.usbDisable] else [])
  ++ (if cfg.mcuboot_cleanup_arm_core then
        [Event.nvicClear]
        ++ (if cfg.cpu_cortex_m7 then
              [Event.dcacheDisable, Event.icacheDisable] else [])
        ++ (if cfg.cpu_has_arm_mpu || cfg.cpu_has_nxp_mpu then
              [Event.mpuClear] else [])
        ++ (if cfg.builtin_stack_guard && cfg.cpu_cortex_m_has_splim then
              [Event.setPSPLIM 0, Event.setMSPLIM 0] else [])
      else [Event.irqLock])
  ++ (if cfg.boot_intr_vec_reloc then
        (if cfg.sw_vector_relay then
           [Event.setVectorTablePointer ((vt + p.flash_base) % 2 ^ 32)]
           ++ (if cfg.cpu_cortex_m_has_vtor then
                 [Event.setVTOR p.vector_relay_table] else [])
         else if cfg.cpu_cortex_m_has_vtor then
           [Event.setVTOR ((vt + p.flash_base) % 2 ^ 32)]
         else [])
      else
        (if cfg.cpu_cortex_m_has_vtor && cfg.sw_vector_relay then
           [Event.setVectorTablePointer p.vector_start,
            Event.setVTOR p.vector_relay_table]
         else []))
  ++ [Event.setMSP msp]
  ++ (if cfg.mcuboot_cleanup_arm_core then
        [Event.setCONTROL 0, Event.isb] else [])
  ++ [Event.jump pc]

/-- Constructor tag of an event, forgetting the written value.  Distinct
constructors get distinct tags. -/
def Event.kind : Event → Nat
  | Event.sysClockDisable => 0
  | Event.usbDisable => 1
  | Event.nvicClear => 2
  | Event.dcacheDisable => 3
  | Event.icacheDisable => 4
  | Event.mpuClear => 5
  | Event.setPSPLIM _ => 6
  | Event.setMSPLIM _ => 7
  | Event.irqLock => 8
  | Event.setVectorTablePointer _ => 9
  | Event.setVTOR _ => 10
  | Event.setMSP _ => 11
  | Event.setCONTROL _ => 12
  | Event.isb => 13
  | Event.jump _ => 14

/-- Position of each operation kind in the teardown order mandated by
spec §4.1: timer-disable, USB-disable, NVIC-clear, cache-disable, MPU-clear,
stack-limit-reset, vector-table write, stack-pointer write, final jump.
The `irq_lock` fallback replaces the NVIC/cache/MPU/stack-limit block, and
the CONTROL reset plus barrier fall between the stack-pointer write and the
jump. -/
def slot : Nat → Nat
  | 0 => 0   -- sysClockDisable (timer-disable)
  | 1 => 1   -- usbDisable
  | 2 => 2   -- nvicClear
  | 3 => 3   -- dcacheDisable
  | 4 => 3   -- icacheDisable
  | 5 => 4   -- mpuClear
  | 6 => 5   -- setPSPLIM
  | 7 => 5   -- setMSPLIM
  | 8 => 2   -- irqLock (fallback occupying the cleanup block)
  | 9 => 6   -- setVectorTablePointer (vector-table write)
  | 10 => 6  -- setVTOR (vector-table write)
  | 11 => 7  -- setMSP (stack-pointer write)
  | 12 => 8  -- setCONTROL
  | 13 => 8  -- isb
  | _ => 9   -- jump

/-- The constructor tags of the events of `chain_jump`, as a function of the
feature flags alone: the written values never influence which operations run
or their order. -/
def kindList (cfg : Config) : List Nat :=
  [0]
  ++ (if cfg.usb_device_stack then [1] else [])
  ++ (if cfg.mcuboot_cleanup_arm_core then
        [2]
        ++ (if cfg.cpu_cortex_m7 then [3, 4] else [])
        ++ (if cfg.cpu_has_arm_mpu || cfg.cpu_has_nxp_mpu then [5] else [])
        ++ (if cfg.builtin_stack_guard && cfg.cpu_cortex_m_has_splim then
              [6, 7] else [])
      else [8])
  ++ (if cfg.boot_intr_vec_reloc then
        (if cfg.sw_vector_relay then
           [9] ++ (if cfg.cpu_cortex_m_has_vtor then [10] else [])
         else if cfg.cpu_cortex_m_has_vtor then [10]
         else [])
      else
        (if cfg.cpu_cortex_m_has_vtor && cfg.sw_vector_relay then [9, 10]
         else []))
  ++ [11]
  ++ (if cfg.mcuboot_cleanup_arm_core then [12, 13] else [])
  ++ [14]

/-- Executable check that a list of constructor tags is ordered by `slot`. -/
def slotSorted (l : List Nat) : Bool :=
  match l with
  | [] => true
  | [_] => true
  | a :: b :: rest => (decide (slot a ≤ slot b)) && slotSorted (b :: rest)

/-- Everything `chain_jump` does before the `__set_MSP` write. -/
def chainFront (cfg : Config) (p : Platform) (vt : Nat) : List Event :=
  [Event.sysClockDisable]
  ++ (if cfg.usb_device_stack then [Event.usbDisable] else [])
  ++ (if cfg.mcuboot_cleanup_arm_core then
        [Event.nvicClear]
        ++ (if cfg.cpu_cortex_m7 then
              [Event.dcacheDisable, Event.icacheDisable] else [])
        ++ (if cfg.cpu_has_arm_mpu || cfg.cpu_has_nxp_mpu then
              [Event.mpuClear] else [])
        ++ (if cfg.builtin_stack_guard && cfg.cpu_cortex_m_has_splim then
              [Event.setPSPLIM 0, Event.setMSPLIM 0] else [])
      else [Event.irqLock])
  ++ (if cfg.boot_intr_vec_reloc then
        (if cfg.sw_vector_relay then
           [Event.setVectorTablePointer ((vt + p.flash_base) % 2 ^ 32)]
           ++ (if cfg.cpu_cortex_m_has_vtor then
                 [Event.setVTOR p.vector_relay_table] else [])
         else if cfg.cpu_cortex_m_has_vtor then
           [Event.setVTOR ((vt + p.flash_base) % 2 ^ 32)]
         else [])
      else
        (if cfg.cpu_cortex_m_has_vtor && cfg.sw_vector_relay then
           [Event.setVectorTablePointer p.vector_start,
            Event.setVTOR p.vector_relay_table]
         else []))

/-- Sample platform constants: STM32-style flash base, with distinct
addresses for the relay table and the bootloader's own vector table.
Field order: `flash_base`, `vector_relay_table`, `vector_start`. -/
def pStd : Platform := ⟨0x08000000, 0x20000100, 0x08000400⟩

/-- Sample configuration: software relay, relocation and VTOR all enabled,
every other feature disabled.  Field order: `usb_device_stack`,
`mcuboot_cleanup_arm_core`, `cpu_cortex_m7`, `cpu_has_arm_mpu`,
`cpu_has_nxp_mpu`, `builtin_stack_guard`, `cpu_cortex_m_has_splim`,
`boot_intr_vec_reloc`, `sw_vector_relay`, `cpu_cortex_m_has_vtor`. -/
def cfgRelayVtor : Config :=
  ⟨false, false, false, false, false, false, false, true, true, true⟩

/-- Sample configuration: relocation disabled, software relay present, VTOR
present, everything else enabled (same field order as `cfgRelayVtor`). -/
def cfgNoRelocRelayVtor : Config :=
  ⟨true, true, true, true, true, true, true, false, true, true⟩

/-- Sample configuration: relocation disabled, software relay present but no
VTOR register (same field order as `cfgRelayVtor`). -/
def cfgNoRelocRelayNoVtor : Config :=
  ⟨false, false, false, false, false, false, false, false, true, false⟩

/-- Sample configuration: every feature flag disabled (same field order as
`cfgRelayVtor`). -/
def cfgAllOff : Config :=
  ⟨false, false, false, false, false, false, false, false, false, false⟩

/-- Sample configuration: every feature flag enabled (same field order as
`cfgRelayVtor`). -/
def cfgAllOn : Config :=
  ⟨true, true, true, true, true, true, true, true, true, true⟩

theorem map_kind_chain_jump (cfg : Config) (p : Platform) (vt msp pc : Nat) :
    (chain_jump cfg p vt msp pc).map Event.kind = kindList cfg := by
  simp only [chain_jump, kindList, List.map_append, apply_ite (List.map Event.kind),
    List.map_cons, List.map_nil, Event.kind]

theorem slotSorted_chain' (l : List Nat) (h : slotSorted l = true) :
    List.Chain' (fun a b => slot a ≤ slot b) l := by
  induction l with
  | nil => exact List.chain'_nil
  | cons a t ih =>
    cases t with
    | nil => simp
    | cons b rest =>
      simp only [slotSorted, Bool.and_eq_true, decide_eq_true_eq] at h
      exact List.chain'_cons.mpr ⟨h.1, ih h.2⟩

theorem mem_chain_jump_iff_kind (cfg : Config) (p : Platform) (vt msp pc : Nat)
    (e : Event) (h : ∀ x : Event, x.kind = e.kind → x = e) :
    e ∈ chain_jump cfg p vt msp pc ↔ e.kind ∈ kindList cfg := by
  rw [← map_kind_chain_jump cfg p vt msp pc]
  constructor
  · exact fun hm => List.mem_map_of_mem _ hm
  · intro hm
    obtain ⟨x, hx, hk⟩ := List.mem_map.mp hm
    exact (h x hk) ▸ hx

theorem exists_mem_chain_jump_iff_kind (cfg : Config) (p : Platform)
    (vt msp pc : Nat) (k : Nat) (mk : Nat → Event)
    (hmk : ∀ v, (mk v).kind = k)
    (hb : ∀ x : Event, x.kind = k → ∃ v, x = mk v) :
    (∃ v, mk v ∈ chain_jump cfg p vt msp pc) ↔ k ∈ kindList cfg := by
  rw [← map_kind_chain_jump cfg p vt msp pc]
  constructor
  · rintro ⟨v, hv⟩
    exact hmk v ▸ List.mem_map_of_mem Event.kind hv
  · intro hm
    obtain ⟨x, hx, hk⟩ := List.mem_map.mp hm
    obtain ⟨v, hv⟩ := hb x hk
    exact ⟨v, hv ▸ hx⟩

theorem kindList_facts (cfg : Config) :
    slotSorted (kindList cfg) = true ∧
    0 ∈ kindList cfg ∧
    (1 ∈ kindList cfg ↔ cfg.usb_device_stack = true) ∧
    (2 ∈ kindList cfg ↔ cfg.mcuboot_cleanup_arm_core = true) ∧
    (3 ∈ kindList cfg ↔
      cfg.mcuboot_cleanup_arm_core = true ∧ cfg.cpu_cortex_m7 = true) ∧
    (4 ∈ kindList cfg ↔
      cfg.mcuboot_cleanup_arm_core = true ∧ cfg.cpu_cortex_m7 = true) ∧
    (5 ∈ kindList cfg ↔
      cfg.mcuboot_cleanup_arm_core = true ∧
        (cfg.cpu_has_arm_mpu = true ∨ cfg.cpu_has_nxp_mpu = true)) ∧
    (6 ∈ kindList cfg ↔
      cfg.mcuboot_cleanup_arm_core = true ∧
        cfg.builtin_stack_guard = true ∧ cfg.cpu_cortex_m_has_splim = true) ∧
    (7 ∈ kindList cfg ↔
      cfg.mcuboot_cleanup_arm_core = true ∧
        cfg.builtin_stack_guard = true ∧ cfg.cpu_cortex_m_has_splim = true) ∧
    (8 ∈ kindList cfg ↔ cfg.mcuboot_cleanup_arm_core = false) ∧
    ((9 ∈ kindList cfg ∨ 10 ∈ kindList cfg) ↔
      (cfg.boot_intr_vec_reloc = true ∧
        (cfg.sw_vector_relay = true ∨ cfg.cpu_cortex_m_has_vtor = true)) ∨
      (cfg.boot_intr_vec_reloc = false ∧
        cfg.cpu_cortex_m_has_vtor = true ∧ cfg.sw_vector_relay = true)) ∧
    11 ∈ kindList cfg ∧
    14 ∈ kindList cfg := by
  obtain ⟨a, b, c, d, e, f, g, h, i, j⟩ := cfg
  revert a b c d e f g h i j
  decide

theorem kind_eq_zero (x : Event) (h : x.kind = 0) : x = Event.sysClockDisable := by
  cases x <;> simp_all [Event.kind]

theorem kind_eq_one (x : Event) (h : x.kind = 1) : x = Event.usbDisable := by
  cases x <;> simp_all [Event.kind]

theorem kind_eq_two (x : Event) (h : x.kind = 2) : x = Event.nvicClear := by
  cases x <;> simp_all [Event.kind]

theorem kind_eq_three (x : Event) (h : x.kind = 3) : x = Event.dcacheDisable := by
  cases x <;> simp_all [Event.kind]

theorem kind_eq_four (x : Event) (h : x.kind = 4) : x = Event.icacheDisable := by
  cases x <;> simp_all [Event.kind]

theorem kind_eq_five (x : Event) (h : x.kind = 5) : x = Event.mpuClear := by
  cases x <;> simp_all [Event.kind]

theorem kind_eq_six (x : Event) (h : x.kind = 6) : ∃ v, x = Event.setPSPLIM v := by
  cases x <;> first | exact ⟨_, rfl⟩ | simp_all [Event.kind]

theorem kind_eq_seven (x : Event) (h : x.kind = 7) : ∃ v, x = Event.setMSPLIM v := by
  cases x <;> first | exact ⟨_, rfl⟩ | simp_all [Event.kind]

theorem kind_eq_eight (x : Event) (h : x.kind = 8) : x = Event.irqLock := by
  cases x <;> simp_all [Event.kind]

theorem kind_eq_nine (x : Event) (h : x.kind = 9) :
    ∃ v, x = Event.setVectorTablePointer v := by
  cases x <;> first | exact ⟨_, rfl⟩ | simp_all [Event.kind]

theorem kind_eq_ten (x : Event) (h : x.kind = 10) : ∃ v, x = Event.setVTOR v := by
  cases x <;> first | exact ⟨_, rfl⟩ | simp_all [Event.kind]

theorem kind_eq_eleven (x : Event) (h : x.kind = 11) : ∃ v, x = Event.setMSP v := by
  cases x <;> first | exact ⟨_, rfl⟩ | simp_all [Event.kind]

theorem kind_eq_fourteen (x : Event) (h : x.kind = 14) : ∃ v, x = Event.jump v := by
  cases x <;> first | exact ⟨_, rfl⟩ | simp_all [Event.kind]

/-- C1: For every combination of the platform feature flags, the sequence of
side-effecting operations performed by `chain_jump` respects the relative
order mandated by spec §4.1 (`slot` assigns each operation its §4.1
position, and the trace is weakly increasing in `slot`), and each step is
present exactly when its feature is enabled: the timer-disable, the
stack-pointer write and the final jump always occur; the USB-disable occurs
iff the USB stack is enabled; the NVIC-clear occurs iff core cleanup is
enabled; the cache-disables occur iff core cleanup and the Cortex-M7 cache
flag are enabled; the MPU-clear occurs iff core cleanup and an MPU flag are
enabled; the stack-limit resets occur iff core cleanup, the stack guard and
the limit registers are enabled; and a vector-table write (relay pointer or
VTOR) occurs iff the vector-relocation configuration calls for one.  So
steps for disabled features are omitted, never reordered around. -/
theorem chain_jump_teardown_order (cfg : Config) (p : Platform)
    (vt msp pc : Nat) :
    List.Chain' (fun a b => slot a.kind ≤ slot b.kind)
      (chain_jump cfg p vt msp pc) ∧
    Event.sysClockDisable ∈ chain_jump cfg p vt msp pc ∧
    (Event.usbDisable ∈ chain_jump cfg p vt msp pc ↔
      cfg.usb_device_stack = true) ∧
    (Event.nvicClear ∈ chain_jump cfg p vt msp pc ↔
      cfg.mcuboot_cleanup_arm_core = true) ∧
    (Event.dcacheDisable ∈ chain_jump cfg p vt msp pc ↔
      cfg.mcuboot_cleanup_arm_core = true ∧ cfg.cpu_cortex_m7 = true) ∧
    (Event.icacheDisable ∈ chain_jump cfg p vt msp pc ↔
      cfg.mcuboot_cleanup_arm_core = true ∧ cfg.cpu_cortex_m7 = true) ∧
    (Event.mpuClear ∈ chain_jump cfg p vt msp pc ↔
      cfg.mcuboot_cleanup_arm_core = true ∧
        (cfg.cpu_has_arm_mpu = true ∨ cfg.cpu_has_nxp_mpu = true)) ∧
    ((∃ v, Event.setPSPLIM v ∈ chain_jump cfg p vt msp pc) ↔
      cfg.mcuboot_cleanup_arm_core = true ∧
        cfg.builtin_stack_guard = true ∧ cfg.cpu_cortex_m_has_splim = true) ∧
    ((∃ v, Event.setMSPLIM v ∈ chain_jump cfg p vt msp pc) ↔
      cfg.mcuboot_cleanup_arm_core = true ∧
        cfg.builtin_stack_guard = true ∧ cfg.cpu_cortex_m_has_splim = true) ∧
    (Event.irqLock ∈ chain_jump cfg p vt msp pc ↔
      cfg.mcuboot_cleanup_arm_core = false) ∧
    (((∃ v, Event.setVectorTablePointer v ∈ chain_jump cfg p vt msp pc) ∨
        (∃ v, Event.setVTOR v ∈ chain_jump cfg p vt msp pc)) ↔
      (cfg.boot_intr_vec_reloc = true ∧
        (cfg.sw_vector_relay = true ∨ cfg.cpu_cortex_m_has_vtor = true)) ∨
      (cfg.boot_intr_vec_reloc = false ∧
        cfg.cpu_cortex_m_has_vtor = true ∧ cfg.sw_vector_relay = true)) ∧
    (∃ v, Event.setMSP v ∈ chain_jump cfg p vt msp pc) ∧
    (∃ v, Event.jump v ∈ chain_jump cfg p vt msp pc) := by
  obtain ⟨hs, h0, h1, h2, h3, h4, h5, h6, h7, h8, h9, h11, h14⟩ :=
    kindList_facts cfg
  refine ⟨?_, ?_, ?_, ?_, ?_, ?_, ?_, ?_, ?_, ?_, ?_, ?_, ?_⟩
  · have hc : List.Chain' (fun x y => slot x ≤ slot y)
        ((chain_jump cfg p vt msp pc).map Event.kind) := by
      rw [map_kind_chain_jump]
      exact slotSorted_chain' _ hs
    exact (List.chain'_map Event.kind).mp hc
  · exact (mem_chain_jump_iff_kind cfg p vt msp pc Event.sysClockDisable
      kind_eq_zero).mpr h0
  · exact (mem_chain_jump_iff_kind cfg p vt msp pc Event.usbDisable
      kind_eq_one).trans h1
  · exact (mem_chain_jump_iff_kind cfg p vt msp pc Event.nvicClear
      kind_eq_two).trans h2
  · exact (mem_chain_jump_iff_kind cfg p vt msp pc Event.dcacheDisable
      kind_eq_three).trans h3
  · exact (mem_chain_jump_iff_kind cfg p vt msp pc Event.icacheDisable
      kind_eq_four).trans h4
  · exact (mem_chain_jump_iff_kind cfg p vt msp pc Event.mpuClear
      kind_eq_five).trans h5
  · exact (exists_mem_chain_jump_iff_kind cfg p vt msp pc 6 Event.setPSPLIM
      (fun _ => rfl) kind_eq_six).trans h6
  · exact (exists_mem_chain_jump_iff_kind cfg p vt msp pc 7 Event.setMSPLIM
      (fun _ => rfl) kind_eq_seven).trans h7
  · exact (mem_chain_jump_iff_kind cfg p vt msp pc Event.irqLock
      kind_eq_eight).trans h8
  · rw [exists_mem_chain_jump_iff_kind cfg p vt msp pc 9
      Event.setVectorTablePointer (fun _ => rfl) kind_eq_nine,
      exists_mem_chain_jump_iff_kind cfg p vt msp pc 10 Event.setVTOR
      (fun _ => rfl) kind_eq_ten]
    exact h9
  · exact (exists_mem_chain_jump_iff_kind cfg p vt msp pc 11 Event.setMSP
      (fun _ => rfl) kind_eq_eleven).mpr h11
  · exact (exists_mem_chain_jump_iff_kind cfg p vt msp pc 14 Event.jump
      (fun _ => rfl) kind_eq_fourteen).mpr h14

theorem chain_jump_split (cfg : Config) (p : Platform) (vt msp pc : Nat) :
    chain_jump cfg p vt msp pc =
      chainFront cfg p vt ++ Event.setMSP msp ::
        ((if cfg.mcuboot_cleanup_arm_core then
            [Event.setCONTROL 0, Event.isb] else []) ++ [Event.jump pc]) := by
  simp [chain_jump, chainFront]

/-- C2: In every feature-flag configuration, `chain_jump` writes the main
stack pointer (with the `initial_stack_pointer` argument) after all of the
NVIC-clear, cache-disable, MPU-clear and stack-limit-reset cleanup steps and
before the final jump to the entry point: the trace splits around the single
`setMSP` event, no cleanup event occurs after it, and the jump occurs after
it. -/
theorem chain_jump_msp_after_cleanup_before_jump (cfg : Config) (p : Platform)
    (vt msp pc : Nat) :
    ∃ pre post,
      chain_jump cfg p vt msp pc = pre ++ Event.setMSP msp :: post ∧
      (∀ e ∈ post, e ≠ Event.nvicClear ∧ e ≠ Event.dcacheDisable ∧
        e ≠ Event.icacheDisable ∧ e ≠ Event.mpuClear ∧
        (∀ v, e ≠ Event.setPSPLIM v) ∧ (∀ v, e ≠ Event.setMSPLIM v)) ∧
      Event.jump pc ∈ post := by
  refine ⟨chainFront cfg p vt,
    (if cfg.mcuboot_cleanup_arm_core then
       [Event.setCONTROL 0, Event.isb] else []) ++ [Event.jump pc],
    chain_jump_split cfg p vt msp pc, ?_, ?_⟩
  · intro e he
    cases hb : cfg.mcuboot_cleanup_arm_core <;> simp_all
    rcases he with rfl | rfl | rfl <;> simp
  · simp

/-- C3: Whenever the software vector-relay is present, relocation is enabled
and the hardware VTOR register is present, `chain_jump` sets the relay
pointer to the absolute vector-table address (`vt` plus the flash base, as a
32-bit sum) and sets VTOR to the address of the relay table; the relay table
address is the only value ever written to VTOR, so VTOR is never pointed
directly at the image's own table. -/
theorem chain_jump_relay_with_vtor (cfg : Config) (p : Platform)
    (vt msp pc : Nat)
    (hrelay : cfg.sw_vector_relay = true)
    (hreloc : cfg.boot_intr_vec_reloc = true)
    (hvtor : cfg.cpu_cortex_m_has_vtor = true) :
    Event.setVectorTablePointer ((vt + p.flash_base) % 2 ^ 32) ∈
      chain_jump cfg p vt msp pc ∧
    Event.setVTOR p.vector_relay_table ∈ chain_jump cfg p vt msp pc ∧
    ∀ v, Event.setVTOR v ∈ chain_jump cfg p vt msp pc →
      v = p.vector_relay_table := by
  obtain ⟨a, b, c, d, e, f, g, h, i, j⟩ := cfg
  have hi : i = true := hrelay
  have hh : h = true := hreloc
  have hj : j = true := hvtor
  subst hi hh hj
  cases a <;> cases b <;> cases c <;> cases d <;> cases e <;> cases f <;>
    cases g <;> simp [chain_jump]

/-- Witness for C3 at a concrete configuration and concrete inputs. -/
theorem chain_jump_relay_with_vtor_witness :
    cfgRelayVtor.sw_vector_relay = true ∧
    cfgRelayVtor.boot_intr_vec_reloc = true ∧
    cfgRelayVtor.cpu_cortex_m_has_vtor = true ∧
    (Event.setVectorTablePointer ((0x1000 + pStd.flash_base) % 2 ^ 32) ∈
        chain_jump cfgRelayVtor pStd 0x1000 0x20004000 0x08001201 ∧
      Event.setVTOR pStd.vector_relay_table ∈
        chain_jump cfgRelayVtor pStd 0x1000 0x20004000 0x08001201 ∧
      ∀ v, Event.setVTOR v ∈
          chain_jump cfgRelayVtor pStd 0x1000 0x20004000 0x08001201 →
        v = pStd.vector_relay_table) :=
  ⟨rfl, rfl, rfl,
   chain_jump_relay_with_vtor cfgRelayVtor pStd 0x1000 0x20004000 0x08001201
     rfl rfl rfl⟩

/-- C4 counterexample: with relocation disabled and the software relay
present but no VTOR register, `chain_jump` does not restore the relay
pointer to the bootloader's own vector table — in fact it performs no relay
pointer write at all, because the restore branch in the source requires
`CONFIG_CPU_CORTEX_M_HAS_VTOR` as well.  This refutes the claim's "regardless
of whether the hardware vector-table-offset register is present". -/
theorem chain_jump_no_vtor_no_restore :
    ¬ Event.setVectorTablePointer pStd.vector_start ∈
        chain_jump cfgNoRelocRelayNoVtor pStd 0x1000 0x20004000 0x08001201 := by
  decide

/-- C4 (amended): whenever relocation is globally disabled, the software
relay is present and the VTOR register is also present, `chain_jump`
restores the relay pointer to the bootloader's own original vector table
address (`_vector_start`), regardless of every other feature flag; and that
is the only relay-pointer write. -/
theorem chain_jump_no_reloc_restores_relay (cfg : Config) (p : Platform)
    (vt msp pc : Nat)
    (hreloc : cfg.boot_intr_vec_reloc = false)
    (hrelay : cfg.sw_vector_relay = true)
    (hvtor : cfg.cpu_cortex_m_has_vtor = true) :
    Event.setVectorTablePointer p.vector_start ∈ chain_jump cfg p vt msp pc ∧
    ∀ v, Event.setVectorTablePointer v ∈ chain_jump cfg p vt msp pc →
      v = p.vector_start := by
  obtain ⟨a, b, c, d, e, f, g, h, i, j⟩ := cfg
  have hi : i = true := hrelay
  have hh : h = false := hreloc
  have hj : j = true := hvtor
  subst hi hh hj
  cases a <;> cases b <;> cases c <;> cases d <;> cases e <;> cases f <;>
    cases g <;> simp [chain_jump]

/-- Witness for the amended C4 at a concrete configuration (every unrelated
flag enabled) and concrete inputs. -/
theorem chain_jump_no_reloc_restores_relay_witness :
    cfgNoRelocRelayVtor.boot_intr_vec_reloc = false ∧
    cfgNoRelocRelayVtor.sw_vector_relay = true ∧
    cfgNoRelocRelayVtor.cpu_cortex_m_has_vtor = true ∧
    (Event.setVectorTablePointer pStd.vector_start ∈
        chain_jump cfgNoRelocRelayVtor pStd 0x1000 0x20004000 0x08001201 ∧
      ∀ v, Event.setVectorTablePointer v ∈
          chain_jump cfgNoRelocRelayVtor pStd 0x1000 0x20004000 0x08001201 →
        v = pStd.vector_start) :=
  ⟨rfl, rfl, rfl,
   chain_jump_no_reloc_restores_relay cfgNoRelocRelayVtor pStd 0x1000
     0x20004000 0x08001201 rfl rfl rfl⟩

/-- C5: For `vector_table_base = 0x1000` and a platform flash base of
`0x08000000`, the absolute vector-table address `chain_jump` writes to the
vector-table-offset mechanism equals `0x08001000`: it goes to the relay
pointer when the software relay is present, and directly to VTOR when the
relay is absent but VTOR is present (relocation enabled in both cases). -/
theorem chain_jump_addr_0x08001000 (cfg : Config) (p : Platform)
    (msp pc : Nat)
    (hfb : p.flash_base = 0x08000000)
    (hreloc : cfg.boot_intr_vec_reloc = true) :
    (cfg.sw_vector_relay = true →
      Event.setVectorTablePointer 0x08001000 ∈
        chain_jump cfg p 0x1000 msp pc) ∧
    (cfg.sw_vector_relay = false → cfg.cpu_cortex_m_has_vtor = true →
      Event.setVTOR 0x08001000 ∈ chain_jump cfg p 0x1000 msp pc) := by
  obtain ⟨a, b, c, d, e, f, g, h, i, j⟩ := cfg
  obtain ⟨fb, rt, vs⟩ := p
  have hh : h = true := hreloc
  have hf : fb = 0x08000000 := hfb
  subst hh hf
  constructor
  · intro hrelay
    have hi : i = true := hrelay
    subst hi
    show Event.setVectorTablePointer 0x08001000 ∈ _ ++ _ ++ _ ++ _ ++ _ ++ _ ++ _
    refine List.mem_append_left _ (List.mem_append_left _
      (List.mem_append_left _ (List.mem_append_right _ ?_)))
    norm_num
  · intro hrelay hvtor
    have hi : i = false := hrelay
    have hj : j = true := hvtor
    subst hi hj
    show Event.setVTOR 0x08001000 ∈ _ ++ _ ++ _ ++ _ ++ _ ++ _ ++ _
    refine List.mem_append_left _ (List.mem_append_left _
      (List.mem_append_left _ (List.mem_append_right _ ?_)))
    norm_num

/-- Witness for C5 at concrete configurations: the relay branch under
`cfgRelayVtor` and the direct-VTOR branch under `cfgAllOff` extended with
relocation and VTOR. -/
theorem chain_jump_addr_0x08001000_witness :
    pStd.flash_base = 0x08000000 ∧
    cfgRelayVtor.boot_intr_vec_reloc = true ∧
    cfgRelayVtor.sw_vector_relay = true ∧
    Event.setVectorTablePointer 0x08001000 ∈
      chain_jump cfgRelayVtor pStd 0x1000 0x20004000 0x08001201 :=
  ⟨rfl, rfl, rfl,
   (chain_jump_addr_0x08001000 cfgRelayVtor pStd 0x20004000 0x08001201
     rfl rfl).1 rfl⟩

/-- C6: in every configuration without core cleanup, `chain_jump` masks all
interrupts globally (`irq_lock`) and performs none of the NVIC-clear,
cache-disable, MPU-clear or stack-limit-reset steps; conversely, with core
cleanup enabled, `irq_lock` is never taken. -/
theorem chain_jump_cleanup_fallback (cfg : Config) (p : Platform)
    (vt msp pc : Nat) :
    (cfg.mcuboot_cleanup_arm_core = false →
      Event.irqLock ∈ chain_jump cfg p vt msp pc ∧
      Event.nvicClear ∉ chain_jump cfg p vt msp pc ∧
      Event.dcacheDisable ∉ chain_jump cfg p vt msp pc ∧
      Event.icacheDisable ∉ chain_jump cfg p vt msp pc ∧
      Event.mpuClear ∉ chain_jump cfg p vt msp pc ∧
      (∀ v, Event.setPSPLIM v ∉ chain_jump cfg p vt msp pc) ∧
      (∀ v, Event.setMSPLIM v ∉ chain_jump cfg p vt msp pc)) ∧
    (cfg.mcuboot_cleanup_arm_core = true →
      Event.irqLock ∉ chain_jump cfg p vt msp pc) := by
  obtain ⟨-, -, -, h2, h3, h4, h5, h6, h7, h8, -, -, -⟩ := kindList_facts cfg
  constructor
  · intro hc
    refine ⟨?_, ?_, ?_, ?_, ?_, ?_, ?_⟩
    · exact (mem_chain_jump_iff_kind cfg p vt msp pc Event.irqLock
        kind_eq_eight).mpr (h8.mpr hc)
    · intro hm
      have := h2.mp ((mem_chain_jump_iff_kind cfg p vt msp pc Event.nvicClear
        kind_eq_two).mp hm)
      simp_all
    · intro hm
      have := (h3.mp ((mem_chain_jump_iff_kind cfg p vt msp pc
        Event.dcacheDisable kind_eq_three).mp hm)).1
      simp_all
    · intro hm
      have := (h4.mp ((mem_chain_jump_iff_kind cfg p vt msp pc
        Event.icacheDisable kind_eq_four).mp hm)).1
      simp_all
    · intro hm
      have := (h5.mp ((mem_chain_jump_iff_kind cfg p vt msp pc
        Event.mpuClear kind_eq_five).mp hm)).1
      simp_all
    · intro v hm
      have := (h6.mp ((exists_mem_chain_jump_iff_kind cfg p vt msp pc 6
        Event.setPSPLIM (fun _ => rfl) kind_eq_six).mp ⟨v, hm⟩)).1
      simp_all
    · intro v hm
      have := (h7.mp ((exists_mem_chain_jump_iff_kind cfg p vt msp pc 7
        Event.setMSPLIM (fun _ => rfl) kind_eq_seven).mp ⟨v, hm⟩)).1
      simp_all
  · intro hc hm
    have := h8.mp ((mem_chain_jump_iff_kind cfg p vt msp pc Event.irqLock
      kind_eq_eight).mp hm)
    simp_all

/-- Witness for C6 at both concrete configurations: all features off (the
fallback branch) and all features on (the core-cleanup branch). -/
theorem chain_jump_cleanup_fallback_witness :
    (Event.irqLock ∈ chain_jump cfgAllOff pStd 1 2 3 ∧
      Event.nvicClear ∉ chain_jump cfgAllOff pStd 1 2 3 ∧
      Event.dcacheDisable ∉ chain_jump cfgAllOff pStd 1 2 3 ∧
      Event.icacheDisable ∉ chain_jump cfgAllOff pStd 1 2 3 ∧
      Event.mpuClear ∉ chain_jump cfgAllOff pStd 1 2 3 ∧
      (∀ v, Event.setPSPLIM v ∉ chain_jump cfgAllOff pStd 1 2 3) ∧
      (∀ v, Event.setMSPLIM v ∉ chain_jump cfgAllOff pStd 1 2 3)) ∧
    Event.irqLock ∉ chain_jump cfgAllOn pStd 1 2 3 :=
  ⟨(chain_jump_cleanup_fallback cfgAllOff pStd 1 2 3).1 rfl,
   (chain_jump_cleanup_fallback cfgAllOn pStd 1 2 3).2 rfl⟩

/-- C10: the absolute vector-table address is `(vt + flash_base) % 2 ^ 32`,
i.e. 32-bit wrapping addition: with relocation and the relay enabled, the
relay pointer receives exactly that wrapped value for every `vt` (including
values whose sum overflows 32 bits), and every relay-pointer write is below
`2 ^ 32` — no error and no saturation. -/
theorem chain_jump_addr_wraps (cfg : Config) (p : Platform) (vt msp pc : Nat)
    (hreloc : cfg.boot_intr_vec_reloc = true)
    (hrelay : cfg.sw_vector_relay = true) :
    Event.setVectorTablePointer ((vt + p.flash_base) % 2 ^ 32) ∈
      chain_jump cfg p vt msp pc ∧
    ∀ v, Event.setVectorTablePointer v ∈ chain_jump cfg p vt msp pc →
      v < 2 ^ 32 := by
  obtain ⟨a, b, c, d, e, f, g, h, i, j⟩ := cfg
  have hh : h = true := hreloc
  have hi : i = true := hrelay
  subst hh hi
  cases a <;> cases b <;> cases c <;> cases d <;> cases e <;> cases f <;>
    cases g <;> cases j <;> simp [chain_jump] <;>
    exact Nat.mod_lt _ (by norm_num)

/-- Witness for C10 at a wrapping input: `vt = 0xFFFFF000` plus the flash
base `0x08000000` overflows 32 bits and wraps to `0x07FFF000`. -/
theorem chain_jump_addr_wraps_witness :
    cfgRelayVtor.boot_intr_vec_reloc = true ∧
    cfgRelayVtor.sw_vector_relay = true ∧
    (0xFFFFF000 + pStd.flash_base) % 2 ^ 32 = 0x07FFF000 ∧
    (Event.setVectorTablePointer ((0xFFFFF000 + pStd.flash_base) % 2 ^ 32) ∈
        chain_jump cfgRelayVtor pStd 0xFFFFF000 1 2 ∧
      ∀ v, Event.setVectorTablePointer v ∈
          chain_jump cfgRelayVtor pStd 0xFFFFF000 1 2 →
        v < 2 ^ 32) :=
  ⟨rfl, rfl, by norm_num [pStd],
   chain_jump_addr_wraps cfgRelayVtor pStd 0xFFFFF000 1 2 rfl rfl⟩

/-- C7: the byte-fill adapter `__aeabi_memset`, applied to `(dest, n, c)`,
produces exactly the same memory contents as the conventional fill primitive
`memset` called as `(dest, c, n)`, for every `n` in `{0, 1, 16, 4096}` and
every fill byte `c` in `{0x00, 0xFF, 0x5A}`. -/
theorem aeabi_memset_matches_memset (mem : Mem) (dest : Nat) (n : Nat)
    (c : Int) (_hn : n ∈ ([0, 1, 16, 4096] : List Nat))
    (_hc : c ∈ ([0x00, 0xFF, 0x5A] : List Int)) :
    ∀ a, (aeabi_memset mem dest n c).1 a = (memset mem dest c n).1 a :=
  fun _ => rfl

/-- Witness for C7 at a concrete memory, destination, count and byte. -/
theorem aeabi_memset_matches_memset_witness :
    (16 ∈ ([0, 1, 16, 4096] : List Nat) ∧
      (0x5A : Int) ∈ ([0x00, 0xFF, 0x5A] : List Int)) ∧
    ∀ a, (aeabi_memset (fun _ => 7) 100 16 0x5A).1 a =
      (memset (fun _ => 7) 100 0x5A 16).1 a :=
  ⟨⟨by decide, by decide⟩,
   aeabi_memset_matches_memset (fun _ => 7) 100 16 0x5A (by decide) (by decide)⟩

/-- C8: the word-aligned variant `__aeabi_memset4` behaves identically to
the default `__aeabi_memset` on every input: same memory contents and same
returned pointer. -/
theorem aeabi_memset4_eq_aeabi_memset (mem : Mem) (data : Nat) (n : Nat)
    (c : Int) :
    aeabi_memset4 mem data n c = aeabi_memset mem data n c :=
  rfl

/-- C9: both `__aeabi_memset` and `__aeabi_memset4` return their destination
argument unchanged for every input (in particular when `n = 0`), the value
the underlying `memset` returns. -/
theorem aeabi_memset_returns_dest (mem : Mem) (data : Nat) (n : Nat)
    (c : Int) :
    (aeabi_memset mem data n c).2 = data ∧
    (aeabi_memset4 mem data n c).2 = data :=
  ⟨rfl, rfl⟩

end Zigboot
